import Mathlib

/-!
Verification of the insurance-backend authentication service.

The development shallowly embeds the service layer of the repository:
the Prisma-backed persistence state becomes an explicit `DB` record
(lists of `User` and `RefreshToken` rows), every service method becomes
a pure Lean function threading that state, and NestJS exceptions become
an explicit `HttpError` result channel.  Timestamps are naturals
(milliseconds since epoch, matching JavaScript Date arithmetic).
-/

namespace InsuranceBackend

/-- Prisma enum UserRole, values CITIZEN | NGO | ADMIN. -/
inductive UserRole
  | CITIZEN
  | NGO
  | ADMIN
deriving DecidableEq, Repr

/-- A row of the Prisma User table: id, email, passwordHash, role,
isActive, createdAt (timestamp in milliseconds). -/
structure User where
  id : String
  email : String
  passwordHash : String
  role : UserRole
  isActive : Bool
  createdAt : Nat
deriving DecidableEq, Repr

/-- A row of the Prisma RefreshToken table: token (unique lookup key),
userId (owning user), expiresAt (absolute timestamp in milliseconds). -/
structure RefreshToken where
  token : String
  userId : String
  expiresAt : Nat
deriving DecidableEq, Repr

/-- The persistence store seen by the services: the User table and the
RefreshToken table. -/
structure DB where
  users : List User
  refreshTokens : List RefreshToken
deriving DecidableEq, Repr

/-- The NestJS exceptions thrown by the service layer, carrying their
message strings.  ForbiddenException maps to HTTP 403,
UnauthorizedException to 401, NotFoundException to 404. -/
inductive HttpError
  | forbiddenException (msg : String)
  | unauthorizedException (msg : String)
  | notFoundException (msg : String)
deriving DecidableEq, Repr

/-- The error the spec calls DuplicateCredential: the
ForbiddenException thrown by AuthService.register on an existing email. -/
def DuplicateCredential : HttpError :=
  HttpError.forbiddenException "Email already registered"

/-- The error the spec calls AccountDeactivated: the ForbiddenException
thrown by AuthService.validateCredentials on an inactive account. -/
def AccountDeactivated : HttpError :=
  HttpError.forbiddenException "User is deactivated"

/-- An error of the 401 Unauthorized class.  On the refresh path the
controller throws UnauthorizedException for every refusal; the spec
names this whole class InvalidRefreshToken. -/
def HttpError.isUnauthorized : HttpError → Bool
  | HttpError.unauthorizedException _ => true
  | _ => false

/-- Modelled from the spec: bcryptjs.hash with fixed work factor 12 is a
one-way salted hash primitive.  The library itself is outside the
repository; it is modelled deterministically as a tagged copy of the
password, which keeps the contract the spec relies on: compare succeeds
exactly on the hash produced from the same password. -/
def bcryptHash (password : String) : String :=
  "$2b$12$" ++ password

/-- Modelled from the spec: bcryptjs.compare(password, storedHash)
succeeds exactly when storedHash was produced by hashing password. -/
def bcryptCompare (password storedHash : String) : Bool :=
  bcryptHash password == storedHash

/-- Modelled from the spec: JwtService.signAsync over the payload
sub and role.  Signing is outside the repository; it is modelled as a
deterministic encoding of the payload. -/
def signAccessToken (sub : String) (role : UserRole) : String :=
  "jwt." ++ sub ++ "." ++ (match role with
    | UserRole.CITIZEN => "CITIZEN"
    | UserRole.NGO => "NGO"
    | UserRole.ADMIN => "ADMIN")

/-- prisma.user.findUnique where email: first row with that email. -/
def DB.findUserByEmail (db : DB) (email : String) : Option User :=
  db.users.find? (fun u => u.email == email)

/-- prisma.user.findUnique where id: first row with that id. -/
def DB.findUserById (db : DB) (id : String) : Option User :=
  db.users.find? (fun u => u.id == id)

/-- prisma.refreshToken.findUnique where token: first row with that
token. -/
def DB.findRefreshToken (db : DB) (token : String) : Option RefreshToken :=
  db.refreshTokens.find? (fun r => r.token == token)

namespace UsersService

/-- UsersService.findByEmail: returns null for a falsy (empty) email,
otherwise findUnique by email. -/
def findByEmail (db : DB) (email : String) : Option User :=
  if email == "" then none
  else db.findUserByEmail email

/-- UsersService.create: prisma.user.create with email, passwordHash and
role defaulting to CITIZEN when absent.  The database supplies the fresh
id, the creation timestamp and the isActive default true; the generated
id and timestamp are passed in explicitly. -/
def create (db : DB) (email passwordHash : String) (role : Option UserRole)
    (freshId : String) (now : Nat) : User × DB :=
  let u : User :=
    { id := freshId, email := email, passwordHash := passwordHash,
      role := role.getD UserRole.CITIZEN, isActive := true, createdAt := now }
  (u, { db with users := db.users ++ [u] })

/-- UsersService.findById: findUnique by id. -/
def findById (db : DB) (id : String) : Option User :=
  db.findUserById id

/-- UsersService.setActive: prisma.user.update where id, data isActive.
Updates the isActive flag of the matching row and nothing else. -/
def setActive (db : DB) (userId : String) (isActive : Bool) : DB :=
  { db with users :=
      db.users.map (fun u => if u.id == userId then { u with isActive := isActive } else u) }

/-- UsersService.setRole: prisma.user.update where id, data role. -/
def setRole (db : DB) (userId : String) (role : UserRole) : DB :=
  { db with users :=
      db.users.map (fun u => if u.id == userId then { u with role := role } else u) }

/-- Insert a user into a list sorted by createdAt descending. -/
def insertByCreatedAtDesc (u : User) : List User → List User
  | [] => [u]
  | v :: vs =>
      if v.createdAt ≤ u.createdAt then u :: v :: vs
      else v :: insertByCreatedAtDesc u vs

/-- Sort a user list by createdAt descending (insertion sort). -/
def sortByCreatedAtDesc : List User → List User
  | [] => []
  | u :: us => insertByCreatedAtDesc u (sortByCreatedAtDesc us)

/-- UsersService.list: prisma.user.findMany ordered by createdAt
descending.  No select clause restricts the columns: every field of
each row, passwordHash included, is returned. -/
def list (db : DB) : List User :=
  sortByCreatedAtDesc db.users

end UsersService

namespace AuthService

/-- AuthService.register: look up the email through
UsersService.findByEmail; if a user exists throw the
ForbiddenException the spec calls DuplicateCredential (store
unchanged); otherwise hash the password with work factor 12 and persist
a new user through UsersService.create, returning the created row. -/
def register (db : DB) (email password freshId : String) (now : Nat) :
    Except HttpError User × DB :=
  match UsersService.findByEmail db email with
  | some _ => (Except.error DuplicateCredential, db)
  | none =>
      let passwordHash := bcryptHash password
      let ud := UsersService.create db email passwordHash none freshId now
      (Except.ok ud.1, ud.2)

/-- AuthService.validateCredentials: findUnique by email directly on
prisma; null when absent; ForbiddenException (AccountDeactivated) when
the user is inactive, checked before the password; then bcrypt compare:
mismatch gives null, match gives the full stored user row. -/
def validateCredentials (db : DB) (email password : String) :
    Except HttpError (Option User) :=
  match db.findUserByEmail email with
  | none => Except.ok none
  | some user =>
      if !user.isActive then Except.error AccountDeactivated
      else if bcryptCompare password user.passwordHash then Except.ok (some user)
      else Except.ok none

/-- AuthService.issueAccessToken: sign the payload sub and role. -/
def issueAccessToken (id : String) (role : UserRole) : String :=
  signAccessToken id role

/-- AuthService.createRefreshToken: generate a fresh random token (the
generated value is passed in explicitly), compute
expiresAt = now + expiresInDays days in milliseconds, persist the row,
and return the token together with its expiry. -/
def createRefreshToken (db : DB) (userId freshToken : String)
    (now expiresInDays : Nat) : (String × Nat) × DB :=
  let expiresAt := now + expiresInDays * 24 * 60 * 60 * 1000
  let record : RefreshToken :=
    { token := freshToken, userId := userId, expiresAt := expiresAt }
  ((freshToken, expiresAt),
   { db with refreshTokens := db.refreshTokens ++ [record] })

/-- AuthService.validateRefreshToken: findUnique by token; null when
absent; null when expiresAt is strictly before now; otherwise the
stored record. -/
def validateRefreshToken (db : DB) (token : String) (now : Nat) :
    Option RefreshToken :=
  match db.findRefreshToken token with
  | none => none
  | some record =>
      if record.expiresAt < now then none else some record

/-- AuthService.revokeRefreshToken: prisma.refreshToken.deleteMany
where token — removes every row with that token, a no-op when none
exists. -/
def revokeRefreshToken (db : DB) (token : String) : DB :=
  { db with refreshTokens :=
      db.refreshTokens.filter (fun r => !(r.token == token)) }

/-- AuthService.revokeAllForUser: deleteMany where userId. -/
def revokeAllForUser (db : DB) (userId : String) : DB :=
  { db with refreshTokens :=
      db.refreshTokens.filter (fun r => !(r.userId == userId)) }

end AuthService

/-- The request body a caller may send to POST /auth/register.  The DTO
accepts only email and password; a role field, if attempted, is never
read by the controller. -/
structure RegisterRequestBody where
  email : String
  password : String
  role : Option UserRole
deriving DecidableEq, Repr

namespace AuthController

/-- AuthController.register: forwards only body.email and body.password
to AuthService.register; the role field of the body is ignored. -/
def registerEndpoint (db : DB) (body : RegisterRequestBody)
    (freshId : String) (now : Nat) : Except HttpError User × DB :=
  AuthService.register db body.email body.password freshId now

/-- AuthController.refresh: read the refreshToken cookie (absent cookie
is a 401); validate it through AuthService.validateRefreshToken (null
is a 401); load the owning user by id (absent is a 401); reject a
deactivated owner (401); otherwise issue and return a fresh access
token.  The handler performs no write: the store passes through
unchanged on every branch. -/
def refresh (db : DB) (cookieToken : Option String) (now : Nat) :
    Except HttpError String × DB :=
  match cookieToken with
  | none => (Except.error (HttpError.unauthorizedException "No refresh token"), db)
  | some token =>
      match AuthService.validateRefreshToken db token now with
      | none =>
          (Except.error (HttpError.unauthorizedException "Invalid refresh token"), db)
      | some record =>
          match db.findUserById record.userId with
          | none =>
              (Except.error (HttpError.unauthorizedException "User not found"), db)
          | some user =>
              if !user.isActive then
                (Except.error (HttpError.unauthorizedException "User deactivated"), db)
              else
                (Except.ok (AuthService.issueAccessToken user.id user.role), db)

end AuthController

namespace AdminService

/-- AdminService.setActive: findById; NotFoundException when the target
is absent (store unchanged); otherwise UsersService.setActive persists
the flag and the updated row is returned.  No other service call is
made on this path: in particular AuthService.revokeAllForUser is never
invoked. -/
def setActive (db : DB) (userId : String) (isActive : Bool) :
    Except HttpError User × DB :=
  match UsersService.findById db userId with
  | none => (Except.error (HttpError.notFoundException "User not found"), db)
  | some user =>
      (Except.ok { user with isActive := isActive },
       UsersService.setActive db userId isActive)

/-- AdminService.assignNgo: findById; NotFoundException when absent;
otherwise set the role to NGO. -/
def assignNgo (db : DB) (userId : String) :
    Except HttpError User × DB :=
  match UsersService.findById db userId with
  | none => (Except.error (HttpError.notFoundException "User not found"), db)
  | some user =>
      (Except.ok { user with role := UserRole.NGO },
       UsersService.setRole db userId UserRole.NGO)

/-- AdminService.listUsers: delegates to UsersService.list. -/
def listUsers (db : DB) : List User :=
  UsersService.list db

end AdminService

end InsuranceBackend

namespace InsuranceBackend

/-- Claim C1 refuting evidence: registering on an empty store returns the full stored
row, passwordHash included, and listUsers afterwards returns that row
with its passwordHash intact. -/
theorem C1_register_and_list_expose_passwordHash :
    (AuthController.registerEndpoint (DB.mk [] [])
        { email := "a@x.com", password := "longpassword", role := none } "id1" 0).1
      = Except.ok { id := "id1", email := "a@x.com", passwordHash := bcryptHash "longpassword",
                    role := UserRole.CITIZEN, isActive := true, createdAt := 0 }
    ∧ bcryptHash "longpassword" ≠ ""
    ∧ (UsersService.list (AuthController.registerEndpoint (DB.mk [] [])
          { email := "a@x.com", password := "longpassword", role := none } "id1" 0).2).map User.passwordHash
      = [bcryptHash "longpassword"] :=
  ⟨rfl, by decide, rfl⟩

/-- Claim C2: a successful register always persists role CITIZEN. -/
theorem C2_register_role_is_CITIZEN (db : DB) (body : RegisterRequestBody)
    (freshId : String) (now : Nat) (user : User) (db2 : DB)
    (h : AuthController.registerEndpoint db body freshId now = (Except.ok user, db2)) :
    user.role = UserRole.CITIZEN ∧ db2.users = db.users ++ [user] := by
  unfold AuthController.registerEndpoint AuthService.register at h
  cases hfind : UsersService.findByEmail db body.email with
  | some u => rw [hfind] at h; simp at h
  | none =>
      rw [hfind] at h
      simp [UsersService.create, Prod.ext_iff] at h
      obtain ⟨h1, h2⟩ := h
      subst h1
      subst h2
      constructor
      · rfl
      · rfl

/-- Witness for claim C2 at a concrete input. -/
theorem C2_witness :
    User.role (User.mk "id1" "a@x.com" (bcryptHash "pw") UserRole.CITIZEN true 0) = UserRole.CITIZEN
    ∧ (DB.mk [User.mk "id1" "a@x.com" (bcryptHash "pw") UserRole.CITIZEN true 0] []).users
      = (DB.mk [] []).users ++ [User.mk "id1" "a@x.com" (bcryptHash "pw") UserRole.CITIZEN true 0] :=
  C2_register_role_is_CITIZEN (DB.mk [] []) (RegisterRequestBody.mk "a@x.com" "pw" (some UserRole.ADMIN))
    "id1" 0 _ _ rfl

/-- Claim C10: an inactive account is reported as deactivated for any password. -/
theorem C10_deactivated_before_password_check (db : DB) (email password : String) (u : User)
    (hfind : db.findUserByEmail email = some u) (hinactive : u.isActive = false) :
    AuthService.validateCredentials db email password = Except.error AccountDeactivated := by
  unfold AuthService.validateCredentials
  rw [hfind]
  simp [hinactive]

/-- Witness for claim C10 at a concrete input. -/
theorem C10_witness :
    AuthService.validateCredentials
      (DB.mk [User.mk "ud" "d@x.com" (bcryptHash "rightpw") UserRole.CITIZEN false 0] [])
      "d@x.com" "wrongpw" = Except.error AccountDeactivated :=
  C10_deactivated_before_password_check _ "d@x.com" "wrongpw"
    (User.mk "ud" "d@x.com" (bcryptHash "rightpw") UserRole.CITIZEN false 0) rfl rfl


/-- Claim C4: validateCredentials case analysis: unknown email gives null;
wrong password on an active account gives null; an inactive account
fails with AccountDeactivated; a matching password on an active account
returns the stored user row. -/
theorem C4_validateCredentials_cases (db : DB) (email password : String) :
    (db.findUserByEmail email = none →
      AuthService.validateCredentials db email password = Except.ok none)
    ∧ (∀ user, db.findUserByEmail email = some user → user.isActive = true →
        bcryptCompare password user.passwordHash = false →
        AuthService.validateCredentials db email password = Except.ok none)
    ∧ (∀ user, db.findUserByEmail email = some user → user.isActive = false →
        AuthService.validateCredentials db email password = Except.error AccountDeactivated)
    ∧ (∀ user, db.findUserByEmail email = some user → user.isActive = true →
        bcryptCompare password user.passwordHash = true →
        AuthService.validateCredentials db email password = Except.ok (some user)) := by
  refine ⟨?_, ?_, ?_, ?_⟩
  · intro h
    unfold AuthService.validateCredentials
    rw [h]
  · intro user h hact hcmp
    unfold AuthService.validateCredentials
    rw [h]
    simp [hact, hcmp]
  · intro user h hact
    unfold AuthService.validateCredentials
    rw [h]
    simp [hact]
  · intro user h hact hcmp
    unfold AuthService.validateCredentials
    rw [h]
    simp [hact, hcmp]

/-- Witness for claim C4 at a concrete input: active user, matching password. -/
theorem C4_witness :
    AuthService.validateCredentials
      (DB.mk [User.mk "u1" "a@x.com" (bcryptHash "pw123456") UserRole.CITIZEN true 0] [])
      "a@x.com" "pw123456"
      = Except.ok (some (User.mk "u1" "a@x.com" (bcryptHash "pw123456") UserRole.CITIZEN true 0)) :=
  (C4_validateCredentials_cases
      (DB.mk [User.mk "u1" "a@x.com" (bcryptHash "pw123456") UserRole.CITIZEN true 0] [])
      "a@x.com" "pw123456").2.2.2
    (User.mk "u1" "a@x.com" (bcryptHash "pw123456") UserRole.CITIZEN true 0) rfl rfl rfl

/-- Counterexample for claim C5: at the boundary instant now = expiresAt the
stored record is still returned although expiresAt is not in the
future. -/
theorem C5_counterexample :
    AuthService.validateRefreshToken (DB.mk [] [RefreshToken.mk "t" "u" 5]) "t" 5
      = some (RefreshToken.mk "t" "u" 5)
    ∧ (DB.mk [] [RefreshToken.mk "t" "u" 5]).findRefreshToken "t"
      = some (RefreshToken.mk "t" "u" 5)
    ∧ ¬ (5 < (RefreshToken.mk "t" "u" 5).expiresAt) :=
  ⟨rfl, rfl, by decide⟩

/-- Claim C5 as amended: the stored record is returned iff it exists and its
expiry has not passed (now less or equal expiresAt); an expired token
yields null exactly as an absent one does. -/
theorem C5_validateRefreshToken_iff (db : DB) (token : String) (now : Nat) :
    (∀ record, AuthService.validateRefreshToken db token now = some record ↔
        db.findRefreshToken token = some record ∧ now ≤ record.expiresAt)
    ∧ (AuthService.validateRefreshToken db token now = none ↔
        db.findRefreshToken token = none ∨
          ∃ record, db.findRefreshToken token = some record ∧ record.expiresAt < now) := by
  unfold AuthService.validateRefreshToken
  cases hf : db.findRefreshToken token with
  | none => simp
  | some r =>
      by_cases hexp : r.expiresAt < now
      · simp only [if_pos hexp]
        constructor
        · intro record
          simp
          intro hr
          subst hr
          omega
        · simp
          omega
      · simp only [if_neg hexp]
        constructor
        · intro record
          simp
          intro hr
          subst hr
          omega
        · simp
          omega

/-- Witness for the amended claim C5 at a concrete input. -/
theorem C5_witness :
    (DB.mk [] [RefreshToken.mk "t" "u" 5]).findRefreshToken "t"
      = some (RefreshToken.mk "t" "u" 5)
    ∧ 3 ≤ (RefreshToken.mk "t" "u" 5).expiresAt :=
  ((C5_validateRefreshToken_iff (DB.mk [] [RefreshToken.mk "t" "u" 5]) "t" 3).1
    (RefreshToken.mk "t" "u" 5)).mp rfl


/-- Claim C3: the refresh handler refuses with a 401 (the class the spec
names InvalidRefreshToken) exactly when the presented token is invalid
or the owning user is missing or deactivated, and otherwise returns a
newly issued access token for the owner. -/
theorem C3_refresh_behavior (db : DB) (token : String) (now : Nat) :
    (AuthService.validateRefreshToken db token now = none →
      AuthController.refresh db (some token) now
        = (Except.error (HttpError.unauthorizedException "Invalid refresh token"), db))
    ∧ (∀ record, AuthService.validateRefreshToken db token now = some record →
        db.findUserById record.userId = none →
        AuthController.refresh db (some token) now
          = (Except.error (HttpError.unauthorizedException "User not found"), db))
    ∧ (∀ record user, AuthService.validateRefreshToken db token now = some record →
        db.findUserById record.userId = some user → user.isActive = false →
        AuthController.refresh db (some token) now
          = (Except.error (HttpError.unauthorizedException "User deactivated"), db))
    ∧ (∀ record user, AuthService.validateRefreshToken db token now = some record →
        db.findUserById record.userId = some user → user.isActive = true →
        AuthController.refresh db (some token) now
          = (Except.ok (AuthService.issueAccessToken user.id user.role), db))
    ∧ (∀ e db2, AuthController.refresh db (some token) now = (Except.error e, db2) →
        e.isUnauthorized = true) := by
  refine ⟨?_, ?_, ?_, ?_, ?_⟩
  · intro hv
    simp [AuthController.refresh, hv]
  · intro record hv hu
    simp [AuthController.refresh, hv, hu]
  · intro record user hv hu hact
    simp [AuthController.refresh, hv, hu, hact]
  · intro record user hv hu hact
    simp [AuthController.refresh, hv, hu, hact]
  · intro e db2 h
    unfold AuthController.refresh at h
    repeat' split at h
    all_goals simp only [Prod.mk.injEq, Except.error.injEq] at h
    all_goals obtain ⟨h1, h2⟩ := h
    all_goals first
    | (subst h1; rfl)
    | (cases h1)

/-- Witness for claim C3 at a concrete input: a valid, unexpired token whose owner was deactivated is
rejected with a 401. -/
theorem C3_witness :
    AuthController.refresh
      (DB.mk [User.mk "u1" "e@x.com" "h" UserRole.CITIZEN false 0]
        [RefreshToken.mk "t1" "u1" 100])
      (some "t1") 5
      = (Except.error (HttpError.unauthorizedException "User deactivated"),
         DB.mk [User.mk "u1" "e@x.com" "h" UserRole.CITIZEN false 0]
           [RefreshToken.mk "t1" "u1" 100]) :=
  (C3_refresh_behavior
      (DB.mk [User.mk "u1" "e@x.com" "h" UserRole.CITIZEN false 0]
        [RefreshToken.mk "t1" "u1" 100]) "t1" 5).2.2.1
    (RefreshToken.mk "t1" "u1" 100)
    (User.mk "u1" "e@x.com" "h" UserRole.CITIZEN false 0) rfl rfl rfl

/-- Claim C6: the refresh handler never writes: the store passes through
unchanged on every branch, so any token validates afterwards exactly as
before. -/
theorem C6_refresh_does_not_touch_store (db : DB) (cookieToken : Option String) (now : Nat) :
    (AuthController.refresh db cookieToken now).2 = db
    ∧ ∀ token2 now2,
        AuthService.validateRefreshToken (AuthController.refresh db cookieToken now).2 token2 now2
          = AuthService.validateRefreshToken db token2 now2 := by
  have hframe : (AuthController.refresh db cookieToken now).2 = db := by
    unfold AuthController.refresh
    repeat' split
    all_goals rfl
  exact ⟨hframe, fun token2 now2 => by rw [hframe]⟩

/-- Witness for claim C6 at a concrete input. -/
theorem C6_witness :
    (AuthController.refresh (DB.mk [] []) none 0).2 = DB.mk [] [] :=
  (C6_refresh_does_not_touch_store (DB.mk [] []) none 0).1

/-- Counterexample for claim C7: a stored user whose email is the empty string is
treated as absent by UsersService.findByEmail, so registering the empty
email again does not fail with DuplicateCredential. -/
theorem C7_counterexample :
    (DB.mk [User.mk "u0" "" "h0" UserRole.CITIZEN true 0] []).findUserByEmail ""
      = some (User.mk "u0" "" "h0" UserRole.CITIZEN true 0)
    ∧ (AuthService.register (DB.mk [User.mk "u0" "" "h0" UserRole.CITIZEN true 0] []) "" "pw" "u1" 1).1
      ≠ Except.error DuplicateCredential := by
  refine ⟨rfl, ?_⟩
  intro h
  rw [show (AuthService.register (DB.mk [User.mk "u0" "" "h0" UserRole.CITIZEN true 0] []) "" "pw" "u1" 1).1
        = Except.ok (User.mk "u1" "" (bcryptHash "pw") UserRole.CITIZEN true 1) from rfl] at h
  cases h

/-- Claim C7 as amended: for a non-empty email, register fails with
DuplicateCredential and leaves the store unchanged when a user with
that email exists, and otherwise persists exactly one new user carrying
that email and the hash of the password. -/
theorem C7_register_duplicate_or_create (db : DB) (email password freshId : String)
    (now : Nat) (hne : email ≠ "") :
    (∀ u, db.findUserByEmail email = some u →
        AuthService.register db email password freshId now = (Except.error DuplicateCredential, db))
    ∧ (db.findUserByEmail email = none →
        AuthService.register db email password freshId now
          = (Except.ok (User.mk freshId email (bcryptHash password) UserRole.CITIZEN true now),
             DB.mk (db.users ++ [User.mk freshId email (bcryptHash password) UserRole.CITIZEN true now])
               db.refreshTokens)) := by
  have hbe : (email == "") = false := by
    simp [hne]
  constructor
  · intro u hfind
    unfold AuthService.register UsersService.findByEmail
    rw [hbe]
    simp [hfind]
  · intro hfind
    unfold AuthService.register UsersService.findByEmail
    rw [hbe]
    simp [hfind, UsersService.create]

/-- Witness for the amended claim C7: duplicate non-empty email is refused and the store is
untouched. -/
theorem C7_witness :
    AuthService.register (DB.mk [User.mk "u1" "a@x.com" "h" UserRole.CITIZEN true 0] [])
      "a@x.com" "pw" "u2" 1
      = (Except.error DuplicateCredential,
         DB.mk [User.mk "u1" "a@x.com" "h" UserRole.CITIZEN true 0] []) :=
  (C7_register_duplicate_or_create
      (DB.mk [User.mk "u1" "a@x.com" "h" UserRole.CITIZEN true 0] [])
      "a@x.com" "pw" "u2" 1 (by decide)).1
    (User.mk "u1" "a@x.com" "h" UserRole.CITIZEN true 0) rfl

/-- Claim C8: revocation is an idempotent delete (a no-op on an absent
token), a revoked token no longer validates at any instant, and a
freshly created token validates immediately. -/
theorem C8_revoke_create_validate (db : DB) (token userId freshToken : String)
    (now expiresInDays : Nat) :
    (AuthService.revokeRefreshToken (AuthService.revokeRefreshToken db token) token
      = AuthService.revokeRefreshToken db token)
    ∧ (db.findRefreshToken token = none → AuthService.revokeRefreshToken db token = db)
    ∧ (∀ now2, AuthService.validateRefreshToken (AuthService.revokeRefreshToken db token) token now2 = none)
    ∧ ((∀ r ∈ db.refreshTokens, r.token ≠ freshToken) →
        AuthService.validateRefreshToken
          (AuthService.createRefreshToken db userId freshToken now expiresInDays).2 freshToken now
          = some (RefreshToken.mk freshToken userId (now + expiresInDays * 24 * 60 * 60 * 1000))) := by
  refine ⟨?_, ?_, ?_, ?_⟩
  · simp [AuthService.revokeRefreshToken, List.filter_filter]
  · intro h
    unfold AuthService.revokeRefreshToken
    have hall := List.find?_eq_none.mp h
    have hfix : db.refreshTokens.filter (fun r => !(r.token == token)) = db.refreshTokens :=
      List.filter_eq_self.mpr (fun a ha => by simpa using hall a ha)
    rw [hfix]
  · intro now2
    have hnone : (AuthService.revokeRefreshToken db token).findRefreshToken token = none := by
      rw [DB.findRefreshToken, List.find?_eq_none]
      intro x hx
      have := (List.mem_filter.mp hx).2
      simpa using this
    simp [AuthService.validateRefreshToken, hnone]
  · intro hfresh
    have hnone : db.refreshTokens.find? (fun r => r.token == freshToken) = none :=
      List.find?_eq_none.mpr (fun x hx => by simpa using hfresh x hx)
    unfold AuthService.validateRefreshToken DB.findRefreshToken AuthService.createRefreshToken
    simp only [List.find?_append, hnone, Option.none_or]
    simp

/-- Witness for claim C8 at a concrete input: create on an empty store then validate at the same
instant. -/
theorem C8_witness :
    AuthService.validateRefreshToken
      (AuthService.createRefreshToken (DB.mk [] []) "u1" "tok" 10 14).2 "tok" 10
      = some (RefreshToken.mk "tok" "u1" (10 + 14 * 24 * 60 * 60 * 1000)) :=
  (C8_revoke_create_validate (DB.mk [] []) "tok" "u1" "tok" 10 14).2.2.2
    (by intro r hr; cases hr)

/-- Claim C9: AdminService.setActive leaves the refresh-token table untouched
(revokeAllForUser is never invoked on this path), the user table is at
most pointwise-updated on the matching id, the update touches no field
other than isActive, and users with a different id are unchanged. -/
theorem C9_setActive_frame (db : DB) (userId : String) (isActive : Bool) :
    (AdminService.setActive db userId isActive).2.refreshTokens = db.refreshTokens
    ∧ ((AdminService.setActive db userId isActive).2.users
        = db.users.map (fun u => if u.id == userId then { u with isActive := isActive } else u)
      ∨ (AdminService.setActive db userId isActive).2 = db)
    ∧ (∀ u : User, ({ u with isActive := isActive } : User).id = u.id
        ∧ ({ u with isActive := isActive } : User).email = u.email
        ∧ ({ u with isActive := isActive } : User).passwordHash = u.passwordHash
        ∧ ({ u with isActive := isActive } : User).role = u.role
        ∧ ({ u with isActive := isActive } : User).createdAt = u.createdAt)
    ∧ (∀ u : User, u.id ≠ userId →
        (if u.id == userId then { u with isActive := isActive } else u) = u) := by
  refine ⟨?_, ?_, ?_, ?_⟩
  · unfold AdminService.setActive
    split
    · rfl
    · rfl
  · unfold AdminService.setActive
    split
    · right
      rfl
    · left
      rfl
  · intro u
    exact ⟨rfl, rfl, rfl, rfl, rfl⟩
  · intro u hne
    simp [hne]

/-- Witness for claim C9 at a concrete input. -/
theorem C9_witness :
    (AdminService.setActive
        (DB.mk [User.mk "u9" "e@x.com" "h" UserRole.CITIZEN true 0] [RefreshToken.mk "t9" "u9" 50])
        "u9" false).2.refreshTokens
      = (DB.mk [User.mk "u9" "e@x.com" "h" UserRole.CITIZEN true 0] [RefreshToken.mk "t9" "u9" 50]).refreshTokens
    ∧ (if (User.mk "ux" "f@x.com" "h2" UserRole.NGO true 3).id == "u9"
        then { User.mk "ux" "f@x.com" "h2" UserRole.NGO true 3 with isActive := false }
        else User.mk "ux" "f@x.com" "h2" UserRole.NGO true 3)
      = User.mk "ux" "f@x.com" "h2" UserRole.NGO true 3 :=
  ⟨(C9_setActive_frame
      (DB.mk [User.mk "u9" "e@x.com" "h" UserRole.CITIZEN true 0] [RefreshToken.mk "t9" "u9" 50])
      "u9" false).1,
   (C9_setActive_frame
      (DB.mk [User.mk "u9" "e@x.com" "h" UserRole.CITIZEN true 0] [RefreshToken.mk "t9" "u9" 50])
      "u9" false).2.2.2 (User.mk "ux" "f@x.com" "h2" UserRole.NGO true 3) (by decide)⟩
end InsuranceBackend
